import Mathlib

/-!
Verification development for the data-to-query engine of `sql-spw-bot`.

The Python sources `modules/sql_engine.py` and `modules/ai_agent.py` are
shallowly embedded: strings are `String`/`List Char`, Python dictionaries are
association lists with distinct keys, regular expressions are translated into
executable matching functions, and the SQLite storage engine (an external
dependency) is modelled only where a claim requires it, with the modelling
choice recorded in the doc comment of the corresponding definition.

ASCII scope: the Python functions `str.lower`, `str.strip` and the `re`
character classes are modelled for ASCII text, which covers every string the
program builds and every string appearing in the specification.
-/

namespace SqlSpw

/-! ## Character helpers -/

/-- Python whitespace recognised by `str.strip` (ASCII): space, tab, newline,
vertical tab, form feed, carriage return. -/
def isPySpace (c : Char) : Bool :=
  c = ' ' || c = Char.ofNat 9 || c = Char.ofNat 10 || c = Char.ofNat 11 ||
  c = Char.ofNat 12 || c = Char.ofNat 13

/-- ASCII decimal digit, the `\d` class of the source regexes. -/
def isDigitC (c : Char) : Bool :=
  48 ≤ c.toNat && c.toNat ≤ 57

/-- ASCII word character, the `\w` class backing the `\b` boundary in
`\bitem\b` (letters, digits, underscore). -/
def isWordC (c : Char) : Bool :=
  (65 ≤ c.toNat && c.toNat ≤ 90) || (97 ≤ c.toNat && c.toNat ≤ 122) ||
  isDigitC c || c = '_'

/-- The capture class `[A-Za-z0-9_ -]` used by every filter-value regex in
`offline_sql`. -/
def isValChar (c : Char) : Bool :=
  (65 ≤ c.toNat && c.toNat ≤ 90) || (97 ≤ c.toNat && c.toNat ≤ 122) ||
  isDigitC c || c = '_' || c = ' ' || c = '-'

/-- ASCII uppercase letter test, used to state the lower-case claims. -/
def isUpperA (c : Char) : Bool :=
  65 ≤ c.toNat && c.toNat ≤ 90

/-- ASCII lowering, the model of Python `str.lower`. -/
def lowerChar (c : Char) : Char :=
  if h : 65 ≤ c.toNat ∧ c.toNat ≤ 90 then
    ⟨⟨⟨c.toNat + 32, by omega⟩⟩, Or.inl (by
      change c.toNat + 32 < 55296
      omega)⟩
  else c

/-- Model of Python `str.lower` on the character list of a string. -/
def toLowerL (l : List Char) : List Char := l.map lowerChar

/-- The two quote characters removed by `strip('"\'')` in `offline_sql`. -/
def isQuoteC (c : Char) : Bool :=
  c = '"' || c = Char.ofNat 39

/-! ## List-of-char helpers -/

/-- Model of Python `str.startswith` on character lists: first argument is
the pattern. -/
def startsWithL : List Char → List Char → Bool
  | [], _ => true
  | _ :: _, [] => false
  | p :: ps, c :: cs => p = c && startsWithL ps cs

/-- Model of the Python substring test `pat in s`. -/
def containsSub (pat : List Char) : List Char → Bool
  | [] => pat.isEmpty
  | c :: rest => startsWithL pat (c :: rest) || containsSub pat rest

/-- Remove trailing characters satisfying `p` (helper for `str.strip`). -/
def stripEndL (p : Char → Bool) (l : List Char) : List Char :=
  ((l.reverse).dropWhile p).reverse

/-- Remove leading and trailing characters satisfying `p`; with `isPySpace`
this is Python `str.strip()`, with `isQuoteC` it is `str.strip('"\'')`. -/
def stripBothL (p : Char → Bool) (l : List Char) : List Char :=
  stripEndL p (l.dropWhile p)

/-- The post-processing `m.group(1).strip().strip('"\'')` applied to every
captured filter value in `offline_sql`. -/
def stripValL (l : List Char) : List Char :=
  stripBothL isQuoteC (stripBothL isPySpace l)

/-- Decimal digit character for `n < 10` (helper for rendering integers). -/
def digitC (n : Nat) : Char :=
  ⟨⟨⟨48 + n % 10, by omega⟩⟩, Or.inl (by
    change 48 + n % 10 < 55296
    have : n % 10 < 10 := Nat.mod_lt _ (by omega)
    omega)⟩

/-- Fuel-driven decimal rendering accumulator (model of Python `str(int)`
for non-negative inputs; fuel `n + 1` always suffices). -/
def natChars : Nat → Nat → List Char → List Char
  | 0, _, acc => acc
  | fuel + 1, n, acc =>
    if n / 10 = 0 then digitC n :: acc
    else natChars fuel (n / 10) (digitC n :: acc)

/-- Decimal rendering of a natural number, the model of Python `str`/f-string
formatting of a non-negative `int`. -/
def natStr (n : Nat) : String := String.mk (natChars (n + 1) n [])

/-- Model of Python `int` applied to a non-empty digit string. -/
def digitsToNat (l : List Char) : Nat :=
  l.foldl (fun n c => n * 10 + (c.toNat - 48)) 0

/-! ## Raw values and records -/

/-- Raw cell value as produced by the file readers and stored by the engine:
a string, an integer, or Python `None`.  (`load_csv` produces only strings
and `None`; integers cover the spreadsheet reader's numeric cells as far as
the claims need them.) -/
inductive Raw where
  | rStr (s : String)
  | rInt (n : Int)
  | rNull
deriving DecidableEq, Repr

/-- Python `str(int)` for a possibly negative integer. -/
def intStr (n : Int) : String :=
  if n < 0 then "-" ++ natStr n.natAbs else natStr n.natAbs

/-- Python `str(v)` for a raw value, used by `_infer_type` via `str(s)`. -/
def rawToStr (v : Raw) : String :=
  match v with
  | .rStr s => s
  | .rInt n => intStr n
  | .rNull => "None"

/-- A record: an ordered mapping from column name to raw value, the model of
the Python `Dict[str, Any]` rows consumed by `load_rows`.  Key uniqueness
(a dict invariant) is assumed as a hypothesis where a claim needs it. -/
abbrev Record := List (String × Raw)

/-- Ordered key list of a record, the model of `list(r.keys())`. -/
def keysOf (r : Record) : List String := r.map (fun p => p.1)

/-- Model of Python `r.get(c)` / `r.get(c, None)`: the value stored under the
first occurrence of the key, `None` when the key is absent. -/
def rget (r : Record) (c : String) : Raw :=
  match r.find? (fun p => p.1 == c) with
  | some p => p.2
  | none => Raw.rNull

/-- Test for the Python condition `v in (None, "")` used when scanning for
the first non-empty sample of a column. -/
def isEmptyish (v : Raw) : Bool :=
  match v with
  | .rNull => true
  | .rStr s => s == ""
  | .rInt _ => false

/-! ## Type inference (`SimpleSQLite._infer_type`) -/

/-- Drop a single leading sign, the `[+-]?` prefix of both numeric regexes. -/
def dropSign1 (l : List Char) : List Char :=
  match l with
  | c :: rest => if c = '+' || c = '-' then rest else l
  | [] => []

/-- Full match of `[+-]?\d+` (the integer regex of `_infer_type`). -/
def matchesIntRe (l : List Char) : Bool :=
  let body := dropSign1 l
  !body.isEmpty && body.all isDigitC

/-- Optional exponent `([eE][+-]?\d+)?` anchored at end of string. -/
def matchesExpOpt (l : List Char) : Bool :=
  match l with
  | [] => true
  | c :: rest =>
    if c = 'e' || c = 'E' then
      let ds := dropSign1 rest
      !ds.isEmpty && ds.all isDigitC
    else false

/-- Full match of `[+-]?(\d*\.\d+|\d+\.\d*)([eE][+-]?\d+)?` (the real-number
regex of `_infer_type`). -/
def matchesRealRe (l : List Char) : Bool :=
  let body := dropSign1 l
  let pre := body.takeWhile isDigitC
  match body.drop pre.length with
  | '.' :: rest =>
    let post := rest.takeWhile isDigitC
    (!pre.isEmpty || !post.isEmpty) && matchesExpOpt (rest.drop post.length)
  | _ => false

/-- Full match of `\d{4}-\d{2}-\d{2}` (the ISO-date regex of `_infer_type`;
its branch returns `TEXT`, just like the default). -/
def matchesIsoDate (l : List Char) : Bool :=
  match l with
  | [y1, y2, y3, y4, d1, m1, m2, d2, a1, a2] =>
    isDigitC y1 && isDigitC y2 && isDigitC y3 && isDigitC y4 &&
    d1 = '-' && isDigitC m1 && isDigitC m2 && d2 = '-' &&
    isDigitC a1 && isDigitC a2
  | _ => false

/-- Body of `_infer_type` after the `None` check and `str(s)` conversion. -/
def inferStr (s : String) : String :=
  if matchesIntRe s.data then "INTEGER"
  else if matchesRealRe s.data then "REAL"
  else if matchesIsoDate s.data then "TEXT"
  else "TEXT"

/-- `SimpleSQLite._infer_type`: `None` maps to `TEXT`, any other value is
converted with `str` and classified by the regex chain. -/
def infer_type (v : Raw) : String :=
  match v with
  | .rNull => "TEXT"
  | v => inferStr (rawToStr v)

/-! ## Engine state and errors -/

/-- The in-memory table owned by a `SimpleSQLite` engine: ordered column
names, their inferred SQLite type names, and the positionally stored rows. -/
structure TableState where
  cols : List String
  types : List String
  rows : List (List Raw)
deriving DecidableEq, Repr

/-- Error taxonomy of the specification, mapped onto the Python exceptions:
`emptyInput` is `ValueError("No rows to load")`, `unsafeQuery` is the
`ValueError` of `execute_safe_select`, `noTable` is the storage engine's
`no such table` error, `createFailed` is the storage engine rejecting the
generated `CREATE TABLE` statement, `queryExec` is any other storage-level
failure. -/
inductive Err where
  | emptyInput
  | unsafeQuery
  | noTable
  | createFailed
  | queryExec
deriving DecidableEq, Repr

/-- Column types chosen by `load_rows`: for each column, the first value that
is not `None` and not `""` (records scanned in order) is fed to
`_infer_type`; a column with no such value gets `TEXT`. -/
def colTypes (records : List Record) (cols : List String) : List String :=
  cols.map (fun c =>
    match records.find? (fun r => !isEmptyish (rget r c)) with
    | some r => infer_type (rget r c)
    | none => "TEXT")

/-- Rows as inserted by `load_rows`: for every record, the values of the
first record's columns in order, `None` for missing keys. -/
def tableRowsOf (records : List Record) (cols : List String) : List (List Raw) :=
  records.map (fun r => cols.map (fun c => rget r c))

/-- Column name whose text embeds verbatim into the generated DDL without
breaking it: no double quote (the f-string interpolates the name unescaped
between double quotes) and no NUL character (the Python binding rejects a
statement containing one before executing it). -/
def nameOk (c : String) : Bool :=
  !(c.data.contains '"') && !(c.data.contains (Char.ofNat 0))

/-- SQLite's identifier comparison key: ASCII case folding only
(`sqlite3StrICmp` folds exactly `A`–`Z`), which `toLowerL` matches. -/
def nameKey (c : String) : List Char := toLowerL c.data

/-- Pairwise distinctness of the case-folded column names.  SQLite rejects a
`CREATE TABLE` whose column list repeats a name under its case-insensitive
identifier comparison (`duplicate column name`). -/
def namesDistinctCI : List String → Bool
  | [] => true
  | c :: cs => !((cs.map nameKey).contains (nameKey c)) && namesDistinctCI cs

/-- Acceptance condition for the `CREATE TABLE` statement generated by
`load_rows`: at least one column definition (SQLite's grammar rejects an
empty column list), every name embeddable in the DDL (`nameOk`), and no two
names equal case-insensitively.  Under this condition the quoted
identifiers are valid whatever else the names contain (spaces, punctuation,
even the empty name are all accepted by SQLite). -/
def colsOk (cols : List String) : Bool :=
  !cols.isEmpty && cols.all nameOk && namesDistinctCI cols

/-- `SimpleSQLite.load_rows` as a state transition.  The result pairs the
outcome with the engine state after the call.  An empty record list raises
before any storage access, so the prior state survives.  When the first
record's keys fail `colsOk`, the generated `CREATE TABLE` fails after the
preceding `DROP TABLE IF EXISTS` has already committed, so the prior table
is gone and nothing replaces it: a keyless first record yields the
rejected `CREATE TABLE "<name>" ()`, two keys equal under SQLite's
ASCII-case-insensitive comparison yield `duplicate column name`, and a key
containing a double quote or a NUL breaks the unescaped quoting of the
statement (a name whose quotes all come doubled happens to be SQLite's
identifier escape and would load under a different column name; such
adversarial names are outside the modelled fragment — the embedding
conservatively reports failure for them and no claim asserts their
outcome).  Otherwise the table is dropped and rebuilt from the records;
inserting the modelled raw values never fails.  The engine's fixed table
name, chosen by the application, is assumed quote-free, so quoting it in
the `DROP`/`CREATE` statements never fails. -/
def loadRows (st : Option TableState) (records : List Record) :
    Except Err Unit × Option TableState :=
  match records with
  | [] => (.error .emptyInput, st)
  | r0 :: _ =>
    let cols := keysOf r0
    if colsOk cols then
      (.ok (), some ⟨cols, colTypes records cols, tableRowsOf records cols⟩)
    else (.error .createFailed, none)

/-! ## Safe select guard (`SimpleSQLite.execute_safe_select`) -/

/-- The guard condition of `execute_safe_select`:
`sql.strip().lower()` starts with `"select"` or `"with"`. -/
def safeSelectGuard (sql : String) : Bool :=
  let s := toLowerL (stripBothL isPySpace sql.data)
  startsWithL "select".data s || startsWithL "with".data s

/-- Lower-cased first whitespace-delimited token of the trimmed statement.
This definition follows the specification's words ("first keyword, after
trimming whitespace, case-insensitively") and is compared against the
source's prefix check. -/
def firstKeyword (sql : String) : List Char :=
  toLowerL ((stripBothL isPySpace sql.data).takeWhile (fun c => !isPySpace c))

/-- `execute_safe_select`: the guard runs first; only when it passes is the
statement handed to the storage engine (`exec`, the model of
`self.conn.execute` plus result conversion). -/
def execute_safe_select (exec : String → Except Err (List String × List Record))
    (sql : String) : Except Err (List String × List Record) :=
  if safeSelectGuard sql then exec sql else .error .unsafeQuery

/-- The counting statement of the specification's testable property. -/
def countSql (t : String) : String :=
  "SELECT COUNT(*) AS count FROM " ++ t ++ ";"

/-- Modelled from the spec: SQLite evaluation of the single statement
`SELECT COUNT(*) AS count FROM <t>;` against the engine state (the storage
engine itself is an external dependency).  With a live table it returns one
row whose `count` value is the number of stored rows; with no table the
statement fails at the storage level. -/
def countExec (st : Option TableState) (t : String) :
    String → Except Err (List String × List Record) :=
  fun sql =>
    if sql == countSql t then
      match st with
      | some ts => .ok (["count"], [[("count", Raw.rInt (Int.ofNat ts.rows.length))]])
      | none => .error .queryExec
    else .error .queryExec

/-! ## Schema text (`SimpleSQLite.schema_text`) -/

/-- Python `sep.join(lines)`. -/
def joinSep (sep : String) : List String → String
  | [] => ""
  | [a] => a
  | a :: rest => a ++ sep ++ joinSep sep rest

/-- Python `line.rstrip(",")`. -/
def rstripComma (s : String) : String :=
  String.mk (stripEndL (fun c => c = ',') s.data)

/-- Apply `f` to the last element, the model of `lines[-1] = f(lines[-1])`. -/
def modifyLast (f : String → String) : List String → List String
  | [] => []
  | [a] => [f a]
  | a :: b :: rest => a :: modifyLast f (b :: rest)

/-- Python `repr` of a stored value as rendered inside `str(dict)`; string
values appear single-quoted (embedded quotes are not escaped; no claim
exercises them). -/
def reprRaw : Raw → String
  | .rStr s => "\x27" ++ s ++ "\x27"
  | .rInt n => intStr n
  | .rNull => "None"

/-- Python `str({k: r[k] for k in r.keys()})` for one sample row, keys in
column order. -/
def reprRowDict (cols : List String) (vals : List Raw) : String :=
  "\x7b" ++
    joinSep ", " ((cols.zip vals).map
      (fun p => "\x27" ++ p.1 ++ "\x27: " ++ reprRaw p.2)) ++
  "\x7d"

/-- Description text built by `schema_text` for a live table, exactly as in
the source: a `CREATE TABLE` header, one indented line per column with a
trailing comma, the comma stripped from the last line, a `);` line, and —
when at least one sample row was fetched — a sample section listing up to
`sample_rows` rows as Python dict text.  (`schema_text` itself adds the
missing-table failure: with no live table the sample `SELECT` raises the
storage engine's `no such table` error, modelled as `noTable`; the preceding
`PRAGMA table_info` returns no rows and does not fail.) -/
def renderSchemaText (tname : String) (ts : TableState) (sample_rows : Nat) :
    String :=
  let sample := ts.rows.take sample_rows
  let lines0 := ("CREATE TABLE \"" ++ tname ++ "\" (") ::
    (ts.cols.zip ts.types).map (fun p => "  \"" ++ p.1 ++ "\" " ++ p.2 ++ ",")
  let lines1 := modifyLast rstripComma lines0 ++ [");"]
  let lines2 :=
    if sample.isEmpty then lines1
    else lines1 ++ ["\n-- Sample rows:"] ++ sample.map (reprRowDict ts.cols)
  joinSep "\n" lines2

/-- Outcome of `schema_text`: the storage-level failure on a missing table,
or the rendered description of the live table.  (Stored values are rendered
as inserted; SQLite's type-affinity coercions on retrieval are not
modelled.) -/
def schema_text (tname : String) (st : Option TableState) (sample_rows : Nat) :
    Except Err String :=
  match st with
  | none => .error .noTable
  | some ts => .ok (renderSchemaText tname ts sample_rows)

/-! ## Regex search functions of `offline_sql`

Each `re.search` of the source is translated into a scanner over the
lower-cased question: the earliest start position wins, and at a given start
the pattern components are matched as Python's engine does (greedy `\s*` and
`\s+` — safe here because no alternative begins with whitespace — ordered
alternation, and a greedy final capture group with backtracking out of a
preceding `\s*` when the capture would otherwise be empty; the space
character belongs to the capture class `[A-Za-z0-9_ -]`, so backtracking can
hand a trailing space to the capture). -/

/-- Greedy capture run for the class `[A-Za-z0-9_ -]`. -/
def takeValRun (l : List Char) : List Char := l.takeWhile isValChar

/-- Match `\s*([A-Za-z0-9_ -]+)` at the current position, returning the
captured text: whitespace is consumed greedily, and on failure the last
whitespace character is given back to the capture when it qualifies. -/
def valTail : List Char → Option (List Char)
  | [] => none
  | c :: rest =>
    if isPySpace c then
      match valTail rest with
      | some v => some v
      | none => if isValChar c then some (takeValRun (c :: rest)) else none
    else if isValChar c then some (takeValRun (c :: rest)) else none

/-- Match `\s*(?:=|is)\s*([A-Za-z0-9_ -]+)` (the tail of the rule-1 item
filter regex) at the current position.  The alternation is tried in order;
the alternatives start with distinct non-whitespace characters, so greedy
whitespace skipping and first-prefix dispatch reproduce the regex engine. -/
def opTail1 (l : List Char) : Option (List Char) :=
  let r := l.dropWhile isPySpace
  if startsWithL "=".data r then valTail (r.drop 1)
  else if startsWithL "is".data r then valTail (r.drop 2)
  else none

/-- Match `(?:=|is|named)\s*([A-Za-z0-9_ -]+)` (the operator tail of the
customer/item filter regexes) at the current position. -/
def opTail2 (l : List Char) : Option (List Char) :=
  if startsWithL "=".data l then valTail (l.drop 1)
  else if startsWithL "is".data l then valTail (l.drop 2)
  else if startsWithL "named".data l then valTail (l.drop 5)
  else none

/-- Word boundary after a literal: end of string or a non-word character. -/
def boundaryAfter (l : List Char) : Bool :=
  match l with
  | [] => true
  | c :: _ => !isWordC c

/-- Try `\bitem\b\s*(?:=|is)\s*([A-Za-z0-9_ -]+)` at the current position
(the leading boundary is checked by the caller). -/
def matchItem1At (l : List Char) : Option (List Char) :=
  if startsWithL "item".data l then
    if boundaryAfter (l.drop 4) then opTail1 (l.drop 4) else none
  else none

/-- Scan for the rule-1 item filter; `prevW` records whether the previous
character is a word character (the `\b` before `item`). -/
def searchItem1 (prevW : Bool) : List Char → Option (List Char)
  | [] => none
  | c :: rest =>
    if prevW then searchItem1 (isWordC c) rest
    else
      match matchItem1At (c :: rest) with
      | some v => some v
      | none => searchItem1 (isWordC c) rest

/-- Try `top\s+(\d+)` at the current position. -/
def matchTopAt (l : List Char) : Option (List Char) :=
  match l with
  | 't' :: 'o' :: 'p' :: c :: rest =>
    if isPySpace c then
      let ds := (rest.dropWhile isPySpace).takeWhile isDigitC
      if ds.isEmpty then none else some ds
    else none
  | _ => none

/-- Nonempty list whose first character is Python whitespace (the `\s+`
requirement: at least one whitespace character present). -/
def headIsSpace : List Char → Bool
  | [] => false
  | c :: _ => isPySpace c

/-- Try `<key>\s+(?:=|is|named)\s*([A-Za-z0-9_ -]+)` at the current
position: the literal key, at least one whitespace character, greedy
whitespace skipping, then the operator alternation. -/
def matchKeyAt (key : List Char) (l : List Char) : Option (List Char) :=
  if startsWithL key l then
    let r := l.drop key.length
    if headIsSpace r then opTail2 (r.dropWhile isPySpace) else none
  else none

/-- Leftmost-match scan driving a position matcher, the model of
`re.search` for the boundary-free patterns. -/
def searchSub (matchAt : List Char → Option (List Char)) :
    List Char → Option (List Char)
  | [] => none
  | c :: rest =>
    match matchAt (c :: rest) with
    | some v => some v
    | none => searchSub matchAt rest

/-- `re.search(r"top\s+(\d+)", q)`, returning the captured digits. -/
def searchTopNum (q : List Char) : Option (List Char) := searchSub matchTopAt q

/-- `re.search(r"customer\s+(?:=|is|named)\s*([A-Za-z0-9_ -]+)", q)`. -/
def searchCustomer (q : List Char) : Option (List Char) :=
  searchSub (matchKeyAt "customer".data) q

/-- `re.search(r"item\s+(?:=|is|named)\s*([A-Za-z0-9_ -]+)", q)`. -/
def searchItemNamed (q : List Char) : Option (List Char) :=
  searchSub (matchKeyAt "item".data) q

/-! ## The offline translator (`offline_sql`) -/

/-- Rule-1 trigger: the lower-cased question contains `how many` or
`count`. -/
def rule1Cond (q : List Char) : Bool :=
  containsSub "how many".data q || containsSub "count".data q

/-- Rule-2 trigger: the lower-cased question contains `revenue`,
`total sales`, or `sum`. -/
def rule2Cond (q : List Char) : Bool :=
  containsSub "revenue".data q || containsSub "total sales".data q ||
  containsSub "sum".data q

/-- Grouping choice inside rule 2: `by item` or `per item`. -/
def byItemCond (q : List Char) : Bool :=
  containsSub "by item".data q || containsSub "per item".data q

/-- Grouping choice inside rule 2: `by date`, `per day`, or `daily`. -/
def byDateCond (q : List Char) : Bool :=
  containsSub "by date".data q || containsSub "per day".data q ||
  containsSub "daily".data q

/-- Rule-3 extra condition: the question mentions `item` or `product`. -/
def itemProdCond (q : List Char) : Bool :=
  containsSub "item".data q || containsSub "product".data q

/-- Captured value after `strip().strip('"\'')`, as a string. -/
def valStr (cap : List Char) : String := String.mk (stripValL cap)

/-- SQL emitted by rule 1 with an item filter. -/
def sqlCountFilter (t : String) (v : String) : String :=
  "SELECT COUNT(*) AS count FROM " ++ t ++ " WHERE item = \"" ++ v ++ "\";"

/-- SQL emitted by rule 1 without a filter. -/
def sqlCountAll (t : String) : String :=
  "SELECT COUNT(*) AS count FROM " ++ t ++ ";"

/-- SQL emitted by rule 2 grouped by item. -/
def sqlRevByItem (t : String) : String :=
  "SELECT item, SUM(quantity*price) AS revenue FROM " ++ t ++
  " GROUP BY item ORDER BY revenue DESC LIMIT 10;"

/-- SQL emitted by rule 2 grouped by date. -/
def sqlRevByDate (t : String) : String :=
  "SELECT date, SUM(quantity*price) AS revenue FROM " ++ t ++
  " GROUP BY date ORDER BY date;"

/-- SQL emitted by rule 2 without grouping. -/
def sqlRevTotal (t : String) : String :=
  "SELECT SUM(quantity*price) AS revenue FROM " ++ t ++ ";"

/-- SQL emitted by rule 3 (top `k` items by revenue). -/
def sqlTopK (t : String) (k : Nat) : String :=
  "SELECT item, SUM(quantity*price) AS revenue FROM " ++ t ++
  " GROUP BY item ORDER BY revenue DESC LIMIT " ++ natStr k ++ ";"

/-- SQL emitted by rules 4 and 5 (`field` is `customer` or `item`). -/
def sqlFilter (t : String) (field : String) (v : String) : String :=
  "SELECT * FROM " ++ t ++ " WHERE " ++ field ++ " = \"" ++ v ++ "\" LIMIT 50;"

/-- SQL emitted by the default rule. -/
def sqlDefault (t : String) : String :=
  "SELECT * FROM " ++ t ++ " LIMIT 20;"

/-- Rules 4, 5 and the default of `offline_sql` (reached when rules 1 and 2
do not trigger and rule 3 does not emit). -/
def offlineTail (q : List Char) (t : String) : String :=
  match searchCustomer q with
  | some cap => sqlFilter t "customer" (valStr cap)
  | none =>
    match searchItemNamed q with
    | some cap => sqlFilter t "item" (valStr cap)
    | none => sqlDefault t

/-- Dispatch of `offline_sql` on the already lower-cased question `q`,
with first-matching-rule-wins ordering exactly as the source's `if` chain. -/
def offlineCore (q : List Char) (table_name : String) : String :=
  if rule1Cond q then
    match searchItem1 false q with
    | some cap => sqlCountFilter table_name (valStr cap)
    | none => sqlCountAll table_name
  else if rule2Cond q then
    if byItemCond q then sqlRevByItem table_name
    else if byDateCond q then sqlRevByDate table_name
    else sqlRevTotal table_name
  else
    match searchTopNum q with
    | some ds =>
      if itemProdCond q then sqlTopK table_name (digitsToNat ds)
      else offlineTail q table_name
    | none => offlineTail q table_name

/-- `offline_sql(user_query, table_name)`: the question is lower-cased once
(`q = user_query.lower()`) and dispatched through the rule chain. -/
def offline_sql (user_query table_name : String) : String :=
  offlineCore (toLowerL user_query.data) table_name

/-- Holds when none of the five intent rules of `offline_sql` triggers, so
the default template is emitted. -/
def noRuleMatches (q : List Char) : Bool :=
  !rule1Cond q && !rule2Cond q &&
  !((searchTopNum q).isSome && itemProdCond q) &&
  (searchCustomer q).isNone && (searchItemNamed q).isNone

/-- Semicolon-terminated statement, the formalisation of the spec's
"semicolon-terminated" output contract. -/
def EndsSemi (s : String) : Prop := ∃ u, s.data = u ++ [';']

/-- Number of semicolons in a character list (a single statement generated
for a semicolon-free table name carries exactly one). -/
def semiCount (l : List Char) : Nat := l.countP (fun c => c = ';')

/-! ## The offline summarizer (`offline_answer`) -/

/-- Python `str(v)` as used in the summarizer's f-strings. -/
def pyStr (v : Raw) : String :=
  match v with
  | .rStr s => s
  | .rInt n => intStr n
  | .rNull => "None"

/-- Python `"item" in r` / `r["item"]` on a result-row mapping. -/
def rowGet (r : Record) (k : String) : Option Raw :=
  match r.find? (fun p => p.1 == k) with
  | some p => some p.2
  | none => none

/-- The generic count summary of `offline_answer`. -/
def genericMsg (n : Nat) : String :=
  "Returned " ++ natStr n ++ " rows. Showing first " ++ natStr (min 5 n) ++
  " above."

/-- `offline_answer(user_query, sql, columns, rows)`: the rule-based
summarizer.  An empty result set yields the fixed no-rows message; when some
column name contains `revenue` and at most 10 rows came back, up to three of
the first rows that carry both an `item` and a `revenue` field are joined
into a "Top results" sentence; otherwise the generic count message. -/
def offline_answer (user_query sql : String) (columns : List String)
    (rows : List Record) : String :=
  let n := rows.length
  if n = 0 then "I ran your query but found no matching rows."
  else
    let preview := rows.take 5
    if columns.any (fun c => containsSub "revenue".data (toLowerL c.data)) && n ≤ 10 then
      let parts := (preview.take 3).filterMap (fun r =>
        match rowGet r "item", rowGet r "revenue" with
        | some iv, some rv => some (pyStr iv ++ ": " ++ pyStr rv)
        | _, _ => none)
      if parts.isEmpty then genericMsg n
      else "Top results — " ++ joinSep "; " parts
    else genericMsg n

/-! ## General helper lemmas -/

theorem data_append (s t : String) : (s ++ t).data = s.data ++ t.data := rfl

theorem startsWithL_self_append (a b : List Char) :
    startsWithL a (a ++ b) = true := by
  induction a with
  | nil => rfl
  | cons c cs ih => simp [startsWithL, ih]

theorem toNat_lowerChar_of_upper (c : Char) (h1 : 65 ≤ c.toNat)
    (h2 : c.toNat ≤ 90) : (lowerChar c).toNat = c.toNat + 32 := by
  unfold lowerChar
  rw [dif_pos (And.intro h1 h2)]
  rfl

theorem lowerChar_not_upper (c : Char) : isUpperA (lowerChar c) = false := by
  by_cases h : 65 ≤ c.toNat ∧ c.toNat ≤ 90
  · have ht := toNat_lowerChar_of_upper c h.1 h.2
    simp only [isUpperA, ht, Bool.and_eq_false_iff, decide_eq_false_iff_not]
    omega
  · have he : lowerChar c = c := by
      unfold lowerChar
      rw [dif_neg h]
    rw [he]
    simp only [isUpperA, Bool.and_eq_false_iff, decide_eq_false_iff_not]
    omega

theorem toLowerL_not_upper (l : List Char) (c : Char) (hc : c ∈ toLowerL l) :
    isUpperA c = false := by
  rcases List.mem_map.mp hc with ⟨c0, _, he⟩
  rw [← he]
  exact lowerChar_not_upper c0

/-! ## Capture lemmas: every character of a captured filter value belongs to
the scanned text and to the class `[A-Za-z0-9_ -]` -/

theorem mem_takeValRun (l : List Char) (c : Char) (hc : c ∈ takeValRun l) :
    isValChar c = true ∧ c ∈ l :=
  ⟨List.mem_takeWhile_imp hc, (List.takeWhile_sublist isValChar).subset hc⟩

theorem valTail_spec (l : List Char) (v : List Char) (h : valTail l = some v)
    (c : Char) (hc : c ∈ v) : isValChar c = true ∧ c ∈ l := by
  induction l with
  | nil => simp [valTail] at h
  | cons a rest ih =>
    unfold valTail at h
    by_cases ha : isPySpace a
    · simp only [ha, if_true] at h
      cases hr : valTail rest with
      | some w =>
        rw [hr] at h
        injection h with hv
        subst hv
        rcases ih hr with ⟨h1, h2⟩
        exact ⟨h1, List.mem_cons_of_mem a h2⟩
      | none =>
        rw [hr] at h
        by_cases hav : isValChar a
        · simp only [hav, if_true] at h
          injection h with hv
          subst hv
          exact mem_takeValRun _ c hc
        · simp [hav] at h
    · simp only [ha, if_false] at h
      by_cases hav : isValChar a
      · simp only [hav, if_true] at h
        injection h with hv
        subst hv
        exact mem_takeValRun _ c hc
      · simp [hav] at h

theorem dropWhile_mem (p : Char → Bool) (l : List Char) (c : Char)
    (hc : c ∈ l.dropWhile p) : c ∈ l :=
  (List.dropWhile_sublist p).subset hc

theorem opTail2_spec (l : List Char) (v : List Char) (h : opTail2 l = some v)
    (c : Char) (hc : c ∈ v) : isValChar c = true ∧ c ∈ l := by
  unfold opTail2 at h
  by_cases h1 : startsWithL "=".data l
  · rw [if_pos h1] at h
    rcases valTail_spec _ v h c hc with ⟨ha, hb⟩
    exact ⟨ha, List.drop_subset 1 l hb⟩
  · rw [if_neg h1] at h
    by_cases h2 : startsWithL "is".data l
    · rw [if_pos h2] at h
      rcases valTail_spec _ v h c hc with ⟨ha, hb⟩
      exact ⟨ha, List.drop_subset 2 l hb⟩
    · rw [if_neg h2] at h
      by_cases h3 : startsWithL "named".data l
      · rw [if_pos h3] at h
        rcases valTail_spec _ v h c hc with ⟨ha, hb⟩
        exact ⟨ha, List.drop_subset 5 l hb⟩
      · rw [if_neg h3] at h
        exact absurd h (by simp)

theorem opTail1_spec (l : List Char) (v : List Char) (h : opTail1 l = some v)
    (c : Char) (hc : c ∈ v) : isValChar c = true ∧ c ∈ l := by
  unfold opTail1 at h
  by_cases h1 : startsWithL "=".data (l.dropWhile isPySpace)
  · rw [if_pos h1] at h
    rcases valTail_spec _ v h c hc with ⟨ha, hb⟩
    exact ⟨ha, dropWhile_mem _ _ _ (List.drop_subset 1 _ hb)⟩
  · rw [if_neg h1] at h
    by_cases h2 : startsWithL "is".data (l.dropWhile isPySpace)
    · rw [if_pos h2] at h
      rcases valTail_spec _ v h c hc with ⟨ha, hb⟩
      exact ⟨ha, dropWhile_mem _ _ _ (List.drop_subset 2 _ hb)⟩
    · rw [if_neg h2] at h
      exact absurd h (by simp)

theorem matchItem1At_spec (l : List Char) (v : List Char)
    (h : matchItem1At l = some v) (c : Char) (hc : c ∈ v) :
    isValChar c = true ∧ c ∈ l := by
  unfold matchItem1At at h
  by_cases hs : startsWithL "item".data l
  · rw [if_pos hs] at h
    by_cases hb : boundaryAfter (l.drop 4)
    · rw [if_pos hb] at h
      rcases opTail1_spec _ v h c hc with ⟨h1, h2⟩
      exact ⟨h1, List.drop_subset 4 l h2⟩
    · rw [if_neg hb] at h
      exact absurd h (by simp)
  · rw [if_neg hs] at h
    exact absurd h (by simp)

theorem searchItem1_spec (l : List Char) : ∀ (prevW : Bool) (v : List Char),
    searchItem1 prevW l = some v → ∀ c ∈ v, isValChar c = true ∧ c ∈ l := by
  induction l with
  | nil => intro prevW v h; simp [searchItem1] at h
  | cons a rest ih =>
    intro prevW v h c hc
    unfold searchItem1 at h
    by_cases hp : prevW
    · simp only [hp, if_true] at h
      rcases ih (isWordC a) v h c hc with ⟨h1, h2⟩
      exact ⟨h1, List.mem_cons_of_mem a h2⟩
    · simp only [hp, if_false] at h
      cases hm : matchItem1At (a :: rest) with
      | some w =>
        rw [hm] at h
        have hv : w = v := Option.some.inj h
        subst hv
        exact matchItem1At_spec _ _ hm c hc
      | none =>
        rw [hm] at h
        rcases ih (isWordC a) v h c hc with ⟨h1, h2⟩
        exact ⟨h1, List.mem_cons_of_mem a h2⟩

theorem matchKeyAt_spec (key l v : List Char) (h : matchKeyAt key l = some v)
    (c : Char) (hc : c ∈ v) : isValChar c = true ∧ c ∈ l := by
  unfold matchKeyAt at h
  by_cases hs : startsWithL key l
  · rw [if_pos hs] at h
    by_cases hw : headIsSpace (l.drop key.length)
    · rw [if_pos hw] at h
      rcases opTail2_spec _ v h c hc with ⟨h1, h2⟩
      exact ⟨h1, List.drop_subset key.length l (dropWhile_mem _ _ _ h2)⟩
    · rw [if_neg hw] at h
      exact absurd h (by simp)
  · rw [if_neg hs] at h
    exact absurd h (by simp)

theorem searchSub_spec (matchAt : List Char → Option (List Char))
    (hma : ∀ l v, matchAt l = some v → ∀ c ∈ v, isValChar c = true ∧ c ∈ l)
    (l : List Char) : ∀ v, searchSub matchAt l = some v →
    ∀ c ∈ v, isValChar c = true ∧ c ∈ l := by
  induction l with
  | nil => intro v h; simp [searchSub] at h
  | cons a rest ih =>
    intro v h c hc
    unfold searchSub at h
    cases hm : matchAt (a :: rest) with
    | some w =>
      rw [hm] at h
      have hv : w = v := Option.some.inj h
      subst hv
      exact hma _ _ hm c hc
    | none =>
      rw [hm] at h
      rcases ih v h c hc with ⟨h1, h2⟩
      exact ⟨h1, List.mem_cons_of_mem a h2⟩

theorem stripBothL_subset (p : Char → Bool) (l : List Char) (c : Char)
    (hc : c ∈ stripBothL p l) : c ∈ l := by
  unfold stripBothL stripEndL at hc
  have h1 : c ∈ (l.dropWhile p).reverse.dropWhile p := List.mem_reverse.mp hc
  have h2 : c ∈ (l.dropWhile p).reverse := dropWhile_mem p _ c h1
  exact dropWhile_mem p l c (List.mem_reverse.mp h2)

theorem stripValL_subset (v : List Char) (c : Char) (hc : c ∈ stripValL v) :
    c ∈ v :=
  stripBothL_subset isPySpace v c
    (stripBothL_subset isQuoteC (stripBothL isPySpace v) c hc)

/-! ## Claim C5: the type inferencer trichotomy -/

/-- Claim C5: on every non-empty sample string the type inferencer returns
`INTEGER` exactly when the string fully matches `[+-]?\d+`, otherwise `REAL`
exactly when it fully matches `[+-]?(\d*\.\d+|\d+\.\d*)([eE][+-]?\d+)?`, and
otherwise `TEXT` (the ISO-date branch of the source also returns `TEXT`). -/
theorem claim_C5_infer_type_trichotomy (s : String) (h : s ≠ "") :
    (infer_type (Raw.rStr s) = "INTEGER" ↔ matchesIntRe s.data = true) ∧
    (matchesIntRe s.data = false →
      (infer_type (Raw.rStr s) = "REAL" ↔ matchesRealRe s.data = true)) ∧
    (matchesIntRe s.data = false → matchesRealRe s.data = false →
      infer_type (Raw.rStr s) = "TEXT") := by
  have he : infer_type (Raw.rStr s) = inferStr s := rfl
  rw [he]
  unfold inferStr
  by_cases h1 : matchesIntRe s.data <;> by_cases h2 : matchesRealRe s.data <;>
    simp [h1, h2]

/-- Witness for claim C5 at the concrete sample `"007"`. -/
theorem claim_C5_witness : infer_type (Raw.rStr "007") = "INTEGER" :=
  (claim_C5_infer_type_trichotomy "007" (by decide)).1.mpr (by decide)

/-! ## Claim C1: the question `top 3 items by revenue` -/

/-- Claim C1 counterexample: for the question `top 3 items by revenue` and
table `sales` the translator does not return the top-3 query claimed by the
specification, because the question contains `revenue`, so the revenue rule
(rule 2) matches before the top-N rule, and neither `by item` nor `per item`
occurs in the question text. -/
theorem claim_C1_counterexample :
    offline_sql "top 3 items by revenue" "sales" ≠
      "SELECT item, SUM(quantity*price) AS revenue FROM sales GROUP BY item ORDER BY revenue DESC LIMIT 3;" := by
  decide

/-- Claim C1 amended: for the question `top 3 items by revenue` and table
`sales` the translator returns the unfiltered total-revenue query emitted by
rule 2 (first-matching-rule-wins on the lower-cased question). -/
theorem claim_C1_amended :
    offline_sql "top 3 items by revenue" "sales" =
      "SELECT SUM(quantity*price) AS revenue FROM sales;" := by
  decide

/-! ## Claim C9: the summarizer on an empty result set -/

/-- Claim C9: `offline_answer` is total, and on an empty row list it returns
the fixed no-matching-rows message for every question, SQL string and column
list. -/
theorem claim_C9_empty_rows (uq sql : String) (columns : List String) :
    offline_answer uq sql columns [] =
      "I ran your query but found no matching rows." := rfl

/-! ## Claim C2: the safe-select guard -/

theorem firstKeyword_startsWith (sql : String) (pat : List Char)
    (h : firstKeyword sql = pat) :
    startsWithL pat (toLowerL (stripBothL isPySpace sql.data)) = true := by
  subst h
  unfold firstKeyword
  have hsplit : toLowerL (stripBothL isPySpace sql.data) =
      toLowerL ((stripBothL isPySpace sql.data).takeWhile (fun c => !isPySpace c)) ++
      toLowerL ((stripBothL isPySpace sql.data).dropWhile (fun c => !isPySpace c)) := by
    simp only [toLowerL, ← List.map_append, List.takeWhile_append_dropWhile]
  rw [hsplit]
  exact startsWithL_self_append _ _

/-- Claim C2 counterexample: the guard of `execute_safe_select` is a prefix
check, not a first-keyword check: the statement `withdraw 100;` has first
keyword `withdraw`, yet the guard accepts it (its trimmed lower-cased text
starts with `with`) and the statement is handed to the storage engine
instead of failing with `UnsafeQueryError`. -/
theorem claim_C2_counterexample :
    safeSelectGuard "withdraw 100;" = true ∧
    firstKeyword "withdraw 100;" ≠ "select".data ∧
    firstKeyword "withdraw 100;" ≠ "with".data ∧
    execute_safe_select (fun _ => Except.error Err.queryExec) "withdraw 100;" =
      Except.error Err.queryExec := by
  exact ⟨by decide, by decide, by decide, rfl⟩

/-- Claim C2 amended: `execute_safe_select` accepts exactly the statements
whose trimmed text starts case-insensitively with the prefix `select` or
`with` — in particular every statement whose first keyword is `SELECT` or
`WITH` is passed to storage, but so are other words with these prefixes —
and every string the guard rejects fails with `UnsafeQueryError` before
touching storage (the outcome is independent of the storage callback); the
three statements named by the specification are all rejected. -/
theorem claim_C2_amended (ex : String → Except Err (List String × List Record))
    (sql : String) :
    ((firstKeyword sql = "select".data ∨ firstKeyword sql = "with".data) →
      execute_safe_select ex sql = ex sql) ∧
    (safeSelectGuard sql = false →
      execute_safe_select ex sql = Except.error Err.unsafeQuery) ∧
    execute_safe_select ex "DROP TABLE sales;" = Except.error Err.unsafeQuery ∧
    execute_safe_select ex "DELETE FROM sales;" = Except.error Err.unsafeQuery ∧
    execute_safe_select ex "; SELECT 1;" = Except.error Err.unsafeQuery := by
  refine ⟨?_, ?_, ?_, ?_, ?_⟩
  · intro h
    have hg : safeSelectGuard sql = true := by
      show (startsWithL "select".data (toLowerL (stripBothL isPySpace sql.data)) ||
        startsWithL "with".data (toLowerL (stripBothL isPySpace sql.data))) = true
      rcases h with h | h
      · rw [firstKeyword_startsWith sql _ h]
        simp
      · rw [firstKeyword_startsWith sql _ h]
        simp
    unfold execute_safe_select
    rw [if_pos hg]
  · intro h
    unfold execute_safe_select
    rw [h]
    rfl
  · unfold execute_safe_select
    rw [show safeSelectGuard "DROP TABLE sales;" = false from by decide]
    rfl
  · unfold execute_safe_select
    rw [show safeSelectGuard "DELETE FROM sales;" = false from by decide]
    rfl
  · unfold execute_safe_select
    rw [show safeSelectGuard "; SELECT 1;" = false from by decide]
    rfl

/-- Witness for claim C2 at the concrete statements `SELECT 1;` (accepted)
and `DROP TABLE sales;` (rejected). -/
theorem claim_C2_witness :
    execute_safe_select (fun _ => Except.ok ([], [])) "SELECT 1;" =
      Except.ok ([], []) ∧
    execute_safe_select (fun _ => Except.ok ([], [])) "DROP TABLE sales;" =
      Except.error Err.unsafeQuery := by
  have h := claim_C2_amended (fun _ => Except.ok ([], [])) "SELECT 1;"
  exact ⟨h.1 (Or.inl (by decide)), h.2.2.1⟩

/-! ## Claim C4: failed loads and the prior table -/

/-- Claim C4 counterexample: a non-empty record list whose first record has
no columns makes the generated `CREATE TABLE "<name>" ()` fail after the
`DROP` has committed, so the load fails while the prior table is neither
intact nor replaced — the engine is left with no table at all. -/
theorem claim_C4_counterexample :
    (loadRows (some ⟨["a"], ["TEXT"], [[Raw.rStr "x"]]⟩) [([] : Record)]).1 =
      Except.error Err.createFailed ∧
    (loadRows (some ⟨["a"], ["TEXT"], [[Raw.rStr "x"]]⟩) [([] : Record)]).2 =
      none := ⟨rfl, rfl⟩

/-- Claim C4 amended: a load of an empty record sequence fails with
`EmptyInputError` and leaves the engine state untouched; a load whose first
record has no columns, or whose (DDL-embeddable) column names repeat under
SQLite's case-insensitive comparison, fails after the drop has committed
and leaves no table installed — no partially filled table, but the prior
table is neither intact nor replaced; every load whose first-record column
names are accepted by the storage engine succeeds and fully replaces the
table (the resulting state does not depend on the prior one). -/
theorem claim_C4_amended (st : Option TableState) (r : Record)
    (rs : List Record) :
    loadRows st [] = (Except.error Err.emptyInput, st) ∧
    (keysOf r = [] →
      loadRows st (r :: rs) = (Except.error Err.createFailed, none)) ∧
    ((keysOf r).all nameOk = true → namesDistinctCI (keysOf r) = false →
      loadRows st (r :: rs) = (Except.error Err.createFailed, none)) ∧
    (colsOk (keysOf r) = true →
      (loadRows st (r :: rs)).1 = Except.ok () ∧
      (loadRows st (r :: rs)).2 = (loadRows none (r :: rs)).2) := by
  refine ⟨rfl, ?_, ?_, ?_⟩
  · intro h
    simp [loadRows, colsOk, h]
  · intro h1 h2
    simp [loadRows, colsOk, h2]
  · intro h
    exact ⟨by simp [loadRows, h], by simp [loadRows, h]⟩

/-- Witness for claim C4 at a concrete prior table: a concrete empty load, a
concrete load whose first record repeats a column name up to case (`a` and
`A`), and a concrete successful load. -/
theorem claim_C4_witness :
    loadRows (some ⟨["a"], ["TEXT"], [[Raw.rStr "x"]]⟩) [] =
      (Except.error Err.emptyInput, some ⟨["a"], ["TEXT"], [[Raw.rStr "x"]]⟩) ∧
    loadRows (some ⟨["a"], ["TEXT"], [[Raw.rStr "x"]]⟩)
      [[("a", Raw.rStr "1"), ("A", Raw.rStr "2")]] =
      (Except.error Err.createFailed, none) ∧
    (loadRows (some ⟨["a"], ["TEXT"], [[Raw.rStr "x"]]⟩)
      [[("b", Raw.rStr "1")]]).1 = Except.ok () := by
  have h := claim_C4_amended (some ⟨["a"], ["TEXT"], [[Raw.rStr "x"]]⟩)
    [("b", Raw.rStr "1")] []
  have hdup := claim_C4_amended (some ⟨["a"], ["TEXT"], [[Raw.rStr "x"]]⟩)
    [("a", Raw.rStr "1"), ("A", Raw.rStr "2")] []
  exact ⟨h.1, hdup.2.2.1 (by decide) (by decide), (h.2.2.2 (by decide)).1⟩

/-! ## Claim C8: idempotence of load -/

/-- Claim C8: a successful load is idempotent — repeating the same load from
the state it produced yields the same outcome and the same table state
(hence the same schema and row count). -/
theorem claim_C8_idempotent (st st' : Option TableState) (records : List Record)
    (h : loadRows st records = (Except.ok (), st')) :
    loadRows st' records = (Except.ok (), st') := by
  cases records with
  | nil => simp [loadRows] at h
  | cons r rs =>
    cases hk : colsOk (keysOf r) with
    | false => simp [loadRows, hk] at h
    | true =>
      simp only [loadRows, hk, if_true, Prod.mk.injEq] at h
      rw [← h.2]
      simp [loadRows, hk]

/-- Witness for claim C8 at a concrete one-record load. -/
theorem claim_C8_witness :
    loadRows (some ⟨["a"], ["INTEGER"], [[Raw.rStr "1"]]⟩)
      [[("a", Raw.rStr "1")]] =
      (Except.ok (), some ⟨["a"], ["INTEGER"], [[Raw.rStr "1"]]⟩) :=
  claim_C8_idempotent none (some ⟨["a"], ["INTEGER"], [[Raw.rStr "1"]]⟩)
    [[("a", Raw.rStr "1")]] rfl

/-! ## Claim C3: load followed by `SELECT COUNT(*)` -/

theorem dropWhile_cons_false (p : Char → Bool) (c : Char) (l : List Char)
    (hc : p c = false) : (c :: l).dropWhile p = c :: l := by
  rw [List.dropWhile_cons, hc]
  simp

theorem stripEndL_append_nonspace (u : List Char) (c : Char)
    (hc : isPySpace c = false) : stripEndL isPySpace (u ++ [c]) = u ++ [c] := by
  unfold stripEndL
  rw [List.reverse_append]
  rw [show ([c] : List Char).reverse = [c] from rfl]
  rw [show ([c] : List Char) ++ u.reverse = c :: u.reverse from rfl]
  rw [dropWhile_cons_false _ _ _ hc]
  simp

theorem guard_countSql (t : String) : safeSelectGuard (countSql t) = true := by
  show (startsWithL "select".data (toLowerL (stripBothL isPySpace (countSql t).data)) ||
    startsWithL "with".data (toLowerL (stripBothL isPySpace (countSql t).data))) = true
  have h1 : stripBothL isPySpace (countSql t).data = (countSql t).data := by
    unfold stripBothL
    rw [show (countSql t).data =
      'S' :: ("ELECT COUNT(*) AS count FROM " ++ t ++ ";").data from rfl]
    rw [dropWhile_cons_false _ _ _ (by decide)]
    rw [show ('S' :: ("ELECT COUNT(*) AS count FROM " ++ t ++ ";").data) =
      ("SELECT COUNT(*) AS count FROM " ++ t).data ++ [';'] from rfl]
    exact stripEndL_append_nonspace _ _ (by decide)
  rw [h1]
  have h2 : toLowerL (countSql t).data =
      "select".data ++ (" count(*) as count from ".data ++ toLowerL (t.data ++ [';'])) := by
    rw [show (countSql t).data =
      "SELECT COUNT(*) AS count FROM ".data ++ (t.data ++ [';']) from rfl]
    rw [show toLowerL ("SELECT COUNT(*) AS count FROM ".data ++ (t.data ++ [';'])) =
      toLowerL "SELECT COUNT(*) AS count FROM ".data ++ toLowerL (t.data ++ [';']) from by
        unfold toLowerL
        rw [List.map_append]]
    rw [show toLowerL "SELECT COUNT(*) AS count FROM ".data =
      "select".data ++ " count(*) as count from ".data from by decide]
    rw [List.append_assoc]
  rw [h2]
  rw [startsWithL_self_append]
  simp

/-- Claim C3 counterexample: for the non-empty record sequence consisting of
one empty record, the load fails (`CREATE TABLE "sales" ()` is rejected by
the storage engine) and the subsequent count query fails as well instead of
returning a count of 1. -/
theorem claim_C3_counterexample :
    (loadRows none [([] : Record)]).1 = Except.error Err.createFailed ∧
    execute_safe_select (countExec (loadRows none [([] : Record)]).2 "sales")
      (countSql "sales") = Except.error Err.queryExec := ⟨rfl, rfl⟩

/-- Claim C3 amended: for every non-empty record sequence whose first
record's column names are accepted by the storage engine — at least one
column, each name free of double quotes and NUL, and no two names equal
under SQLite's case-insensitive identifier comparison — `load` succeeds and
a subsequent `SELECT COUNT(*) AS count FROM <table>;` through
`execute_safe_select` returns a single row whose `count` value is the
number of input records. -/
theorem claim_C3_amended (r : Record) (rs : List Record) (t : String)
    (st0 : Option TableState) (hco : colsOk (keysOf r) = true) :
    (loadRows st0 (r :: rs)).1 = Except.ok () ∧
    execute_safe_select (countExec (loadRows st0 (r :: rs)).2 t) (countSql t) =
      Except.ok (["count"],
        [[("count", Raw.rInt (Int.ofNat (r :: rs).length))]]) := by
  have h2 : (loadRows st0 (r :: rs)).2 =
      some ⟨keysOf r, colTypes (r :: rs) (keysOf r),
        tableRowsOf (r :: rs) (keysOf r)⟩ := by
    simp [loadRows, hco]
  constructor
  · simp [loadRows, hco]
  · unfold execute_safe_select
    rw [if_pos (guard_countSql t)]
    rw [h2]
    unfold countExec
    rw [if_pos (by simp)]
    simp [tableRowsOf]

/-- Witness for claim C3 at a concrete one-record load into table `sales`. -/
theorem claim_C3_witness :
    (loadRows none [[("a", Raw.rStr "1")]]).1 = Except.ok () ∧
    execute_safe_select (countExec (loadRows none [[("a", Raw.rStr "1")]]).2 "sales")
      (countSql "sales") =
      Except.ok (["count"], [[("count", Raw.rInt 1)]]) :=
  claim_C3_amended [("a", Raw.rStr "1")] [] "sales" none (by decide)

/-! ## Claim C6: schema text and the missing-table error -/

/-- Claim C6: after a successful load, `schema_text` succeeds and renders the
current table — the freshly computed column list and inferred types of the
loaded records; on an engine with no table it fails with `NoTableError`. -/
theorem claim_C6_schema_text (tname : String) (k : Nat)
    (st0 : Option TableState) (r : Record) (rs : List Record) (ts : TableState)
    (h : loadRows st0 (r :: rs) = (Except.ok (), some ts)) :
    (schema_text tname (some ts) k = Except.ok (renderSchemaText tname ts k) ∧
     ts.cols = keysOf r ∧ ts.types = colTypes (r :: rs) (keysOf r) ∧
     ts.rows = tableRowsOf (r :: rs) (keysOf r)) ∧
    schema_text tname none k = Except.error Err.noTable := by
  cases hk : colsOk (keysOf r) with
  | false => simp [loadRows, hk] at h
  | true =>
    simp only [loadRows, hk, if_true, Prod.mk.injEq] at h
    have hts : ts = ⟨keysOf r, colTypes (r :: rs) (keysOf r),
        tableRowsOf (r :: rs) (keysOf r)⟩ := by
      have := h.2
      exact (Option.some.inj this).symm
    subst hts
    exact ⟨⟨rfl, rfl, rfl, rfl⟩, rfl⟩

/-- Witness for claim C6 at a concrete loaded table and the empty engine. -/
theorem claim_C6_witness :
    schema_text "sales" (some ⟨["a"], ["INTEGER"], [[Raw.rStr "1"]]⟩) 3 =
      Except.ok "CREATE TABLE \"sales\" (\n  \"a\" INTEGER\n);\n\n-- Sample rows:\n\x7b\x27a\x27: \x271\x27\x7d" ∧
    schema_text "sales" none 3 = Except.error Err.noTable := by
  have h := claim_C6_schema_text "sales" 3 none [("a", Raw.rStr "1")] []
    ⟨["a"], ["INTEGER"], [[Raw.rStr "1"]]⟩ rfl
  exact ⟨h.1.1.trans (by rfl), h.2⟩

/-! ## Claim C7: totality, termination and the default template -/

theorem digitC_range (n : Nat) :
    48 ≤ (digitC n).toNat ∧ (digitC n).toNat ≤ 57 := by
  have h : n % 10 < 10 := Nat.mod_lt _ (by omega)
  constructor
  · change 48 ≤ 48 + n % 10
    omega
  · change 48 + n % 10 ≤ 57
    omega

theorem natChars_mem (fuel : Nat) : ∀ (n : Nat) (acc : List Char) (c : Char),
    c ∈ natChars fuel n acc → c ∈ acc ∨ (48 ≤ c.toNat ∧ c.toNat ≤ 57) := by
  induction fuel with
  | zero => intro n acc c hc; exact Or.inl hc
  | succ f ih =>
    intro n acc c hc
    unfold natChars at hc
    by_cases h : n / 10 = 0
    · rw [if_pos h] at hc
      rcases List.mem_cons.mp hc with h1 | h1
      · exact Or.inr (h1 ▸ digitC_range n)
      · exact Or.inl h1
    · rw [if_neg h] at hc
      rcases ih (n / 10) (digitC n :: acc) c hc with h1 | h1
      · rcases List.mem_cons.mp h1 with h2 | h2
        · exact Or.inr (h2 ▸ digitC_range n)
        · exact Or.inl h2
      · exact Or.inr h1

theorem natStr_no_semi (n : Nat) : semiCount (natStr n).data = 0 := by
  unfold semiCount
  apply List.countP_eq_zero.mpr
  intro c hc
  rcases natChars_mem (n + 1) n [] c hc with h | h
  · exact absurd h (List.not_mem_nil c)
  · intro hp
    have hcs : c = ';' := by simpa using hp
    rw [hcs] at h
    exact absurd h.2 (by decide)

theorem semiCount_eq_zero_of_valChar (v : List Char)
    (h : ∀ c ∈ v, isValChar c = true) : semiCount v = 0 := by
  unfold semiCount
  apply List.countP_eq_zero.mpr
  intro c hc hp
  have hcs : c = ';' := by simpa using hp
  have hv := h c hc
  rw [hcs] at hv
  exact absurd hv (by decide)

theorem endsSemi_append (a b : String) (h : EndsSemi b) : EndsSemi (a ++ b) := by
  rcases h with ⟨u, hu⟩
  exact ⟨a.data ++ u, by rw [data_append, hu, List.append_assoc]⟩

theorem endsSemi_sqlCountFilter (t v : String) : EndsSemi (sqlCountFilter t v) :=
  endsSemi_append _ "\";" ⟨"\"".data, rfl⟩

theorem endsSemi_sqlCountAll (t : String) : EndsSemi (sqlCountAll t) :=
  endsSemi_append _ ";" ⟨[], rfl⟩

theorem endsSemi_sqlRevByItem (t : String) : EndsSemi (sqlRevByItem t) :=
  endsSemi_append _ " GROUP BY item ORDER BY revenue DESC LIMIT 10;"
    ⟨" GROUP BY item ORDER BY revenue DESC LIMIT 10".data, rfl⟩

theorem endsSemi_sqlRevByDate (t : String) : EndsSemi (sqlRevByDate t) :=
  endsSemi_append _ " GROUP BY date ORDER BY date;"
    ⟨" GROUP BY date ORDER BY date".data, rfl⟩

theorem endsSemi_sqlRevTotal (t : String) : EndsSemi (sqlRevTotal t) :=
  endsSemi_append _ ";" ⟨[], rfl⟩

theorem endsSemi_sqlTopK (t : String) (k : Nat) : EndsSemi (sqlTopK t k) :=
  endsSemi_append _ ";" ⟨[], rfl⟩

theorem endsSemi_sqlFilter (t f v : String) : EndsSemi (sqlFilter t f v) :=
  endsSemi_append _ "\" LIMIT 50;" ⟨"\" LIMIT 50".data, rfl⟩

theorem endsSemi_sqlDefault (t : String) : EndsSemi (sqlDefault t) :=
  endsSemi_append _ " LIMIT 20;" ⟨" LIMIT 20".data, rfl⟩

theorem offlineTail_endsSemi (q : List Char) (t : String) :
    EndsSemi (offlineTail q t) := by
  unfold offlineTail
  cases searchCustomer q with
  | some cap => exact endsSemi_sqlFilter t "customer" (valStr cap)
  | none =>
    cases searchItemNamed q with
    | some cap => exact endsSemi_sqlFilter t "item" (valStr cap)
    | none => exact endsSemi_sqlDefault t

theorem offlineCore_endsSemi (q : List Char) (t : String) :
    EndsSemi (offlineCore q t) := by
  unfold offlineCore
  by_cases h1 : rule1Cond q
  · rw [if_pos h1]
    cases searchItem1 false q with
    | some cap => exact endsSemi_sqlCountFilter t (valStr cap)
    | none => exact endsSemi_sqlCountAll t
  · rw [if_neg h1]
    by_cases h2 : rule2Cond q
    · rw [if_pos h2]
      by_cases h3 : byItemCond q
      · rw [if_pos h3]
        exact endsSemi_sqlRevByItem t
      · rw [if_neg h3]
        by_cases h4 : byDateCond q
        · rw [if_pos h4]
          exact endsSemi_sqlRevByDate t
        · rw [if_neg h4]
          exact endsSemi_sqlRevTotal t
    · rw [if_neg h2]
      cases searchTopNum q with
      | some ds =>
        show EndsSemi (if itemProdCond q then sqlTopK t (digitsToNat ds)
          else offlineTail q t)
        by_cases h5 : itemProdCond q
        · rw [if_pos h5]
          exact endsSemi_sqlTopK t (digitsToNat ds)
        · rw [if_neg h5]
          exact offlineTail_endsSemi q t
      | none => exact offlineTail_endsSemi q t

theorem semiCount_sqlCountFilter (t v : String) (ht : semiCount t.data = 0)
    (hv : semiCount v.data = 0) : semiCount (sqlCountFilter t v).data = 1 := by
  unfold semiCount at ht hv ⊢
  unfold sqlCountFilter
  simp only [data_append, List.countP_append, ht, hv]
  decide

theorem semiCount_sqlCountAll (t : String) (ht : semiCount t.data = 0) :
    semiCount (sqlCountAll t).data = 1 := by
  unfold semiCount at ht ⊢
  unfold sqlCountAll
  simp only [data_append, List.countP_append, ht]
  decide

theorem semiCount_sqlRevByItem (t : String) (ht : semiCount t.data = 0) :
    semiCount (sqlRevByItem t).data = 1 := by
  unfold semiCount at ht ⊢
  unfold sqlRevByItem
  simp only [data_append, List.countP_append, ht]
  decide

theorem semiCount_sqlRevByDate (t : String) (ht : semiCount t.data = 0) :
    semiCount (sqlRevByDate t).data = 1 := by
  unfold semiCount at ht ⊢
  unfold sqlRevByDate
  simp only [data_append, List.countP_append, ht]
  decide

theorem semiCount_sqlRevTotal (t : String) (ht : semiCount t.data = 0) :
    semiCount (sqlRevTotal t).data = 1 := by
  unfold semiCount at ht ⊢
  unfold sqlRevTotal
  simp only [data_append, List.countP_append, ht]
  decide

theorem semiCount_sqlTopK (t : String) (k : Nat) (ht : semiCount t.data = 0) :
    semiCount (sqlTopK t k).data = 1 := by
  have hk := natStr_no_semi k
  unfold semiCount at ht hk ⊢
  unfold sqlTopK
  simp only [data_append, List.countP_append, ht, hk]
  decide

theorem semiCount_sqlFilter (t f v : String) (ht : semiCount t.data = 0)
    (hf : semiCount f.data = 0) (hv : semiCount v.data = 0) :
    semiCount (sqlFilter t f v).data = 1 := by
  unfold semiCount at ht hf hv ⊢
  unfold sqlFilter
  simp only [data_append, List.countP_append, ht, hf, hv]
  decide

theorem semiCount_sqlDefault (t : String) (ht : semiCount t.data = 0) :
    semiCount (sqlDefault t).data = 1 := by
  unfold semiCount at ht ⊢
  unfold sqlDefault
  simp only [data_append, List.countP_append, ht]
  decide

theorem semiCount_valStr_item1 (q : List Char) (cap : List Char)
    (h : searchItem1 false q = some cap) : semiCount (valStr cap).data = 0 := by
  apply semiCount_eq_zero_of_valChar
  intro c hc
  exact (searchItem1_spec q false cap h c (stripValL_subset cap c hc)).1

theorem semiCount_valStr_key (key q cap : List Char)
    (h : searchSub (matchKeyAt key) q = some cap) :
    semiCount (valStr cap).data = 0 := by
  apply semiCount_eq_zero_of_valChar
  intro c hc
  exact (searchSub_spec (matchKeyAt key) (matchKeyAt_spec key) q cap h c
    (stripValL_subset cap c hc)).1

theorem offlineTail_semiCount (q : List Char) (t : String)
    (ht : semiCount t.data = 0) : semiCount (offlineTail q t).data = 1 := by
  unfold offlineTail
  cases hc : searchCustomer q with
  | some cap =>
    exact semiCount_sqlFilter t "customer" (valStr cap) ht (by decide)
      (semiCount_valStr_key "customer".data q cap hc)
  | none =>
    cases hi : searchItemNamed q with
    | some cap =>
      exact semiCount_sqlFilter t "item" (valStr cap) ht (by decide)
        (semiCount_valStr_key "item".data q cap hi)
    | none => exact semiCount_sqlDefault t ht

theorem offlineCore_semiCount (q : List Char) (t : String)
    (ht : semiCount t.data = 0) : semiCount (offlineCore q t).data = 1 := by
  unfold offlineCore
  by_cases h1 : rule1Cond q
  · rw [if_pos h1]
    cases hs : searchItem1 false q with
    | some cap =>
      exact semiCount_sqlCountFilter t (valStr cap) ht
        (semiCount_valStr_item1 q cap hs)
    | none => exact semiCount_sqlCountAll t ht
  · rw [if_neg h1]
    by_cases h2 : rule2Cond q
    · rw [if_pos h2]
      by_cases h3 : byItemCond q
      · rw [if_pos h3]
        exact semiCount_sqlRevByItem t ht
      · rw [if_neg h3]
        by_cases h4 : byDateCond q
        · rw [if_pos h4]
          exact semiCount_sqlRevByDate t ht
        · rw [if_neg h4]
          exact semiCount_sqlRevTotal t ht
    · rw [if_neg h2]
      cases searchTopNum q with
      | some ds =>
        show semiCount (if itemProdCond q then sqlTopK t (digitsToNat ds)
          else offlineTail q t).data = 1
        by_cases h5 : itemProdCond q
        · rw [if_pos h5]
          exact semiCount_sqlTopK t (digitsToNat ds) ht
        · rw [if_neg h5]
          exact offlineTail_semiCount q t ht
      | none => exact offlineTail_semiCount q t ht

theorem offlineTail_default (q : List Char) (t : String)
    (h4 : searchCustomer q = none) (h5 : searchItemNamed q = none) :
    offlineTail q t = sqlDefault t := by
  unfold offlineTail
  rw [h4, h5]

theorem offlineCore_default (q : List Char) (t : String)
    (h : noRuleMatches q = true) : offlineCore q t = sqlDefault t := by
  unfold noRuleMatches at h
  simp only [Bool.and_eq_true, Bool.not_eq_true', Option.isNone_iff_eq_none] at h
  obtain ⟨⟨⟨⟨h1, h2⟩, h3⟩, h4⟩, h5⟩ := h
  unfold offlineCore
  rw [if_neg (by simp [h1]), if_neg (by simp [h2])]
  cases hts : searchTopNum q with
  | some ds =>
    have h5p : itemProdCond q = false := by
      rw [hts] at h3
      simpa using h3
    show (if itemProdCond q then sqlTopK t (digitsToNat ds)
      else offlineTail q t) = sqlDefault t
    rw [if_neg (by simp [h5p])]
    exact offlineTail_default q t h4 h5
  | none => exact offlineTail_default q t h4 h5

/-- Claim C7: `offline_sql` is total and deterministic — the embedding is a
total function — and for every question and table name the output is a
semicolon-terminated statement; when the table name contains no semicolon
the output contains exactly one semicolon (a single statement); and a
question matching none of the intent rules yields the default template
`SELECT * FROM <table> LIMIT 20;`. -/
theorem claim_C7_translator_total (uq t : String) :
    EndsSemi (offline_sql uq t) ∧
    (semiCount t.data = 0 → semiCount (offline_sql uq t).data = 1) ∧
    (noRuleMatches (toLowerL uq.data) = true → offline_sql uq t = sqlDefault t) := by
  refine ⟨offlineCore_endsSemi _ t, fun ht => offlineCore_semiCount _ t ht,
    fun h => offlineCore_default _ t h⟩

/-- Witness for claim C7 at the unmatched question `hello` and table
`sales`. -/
theorem claim_C7_witness :
    offline_sql "hello" "sales" = sqlDefault "sales" ∧
    semiCount (offline_sql "hello" "sales").data = 1 := by
  have h := claim_C7_translator_total "hello" "sales"
  exact ⟨h.2.2 (by decide), h.2.1 (by decide)⟩

/-! ## Claim C10: extracted filter values are fully lower-case -/

/-- Claim C10: every item/customer filter value extracted by `offline_sql`
comes from the lower-cased question, so it contains no ASCII uppercase
letter; in particular the mixed-case question `item is Apple` emits the
lower-cased literal `WHERE item = "apple"`. -/
theorem claim_C10_lowercase_values :
    (∀ (uq : String) (v : List Char),
      (searchItem1 false (toLowerL uq.data) = some v ∨
       searchCustomer (toLowerL uq.data) = some v ∨
       searchItemNamed (toLowerL uq.data) = some v) →
      ∀ c ∈ stripValL v, isUpperA c = false) ∧
    offline_sql "item is Apple" "sales" =
      "SELECT * FROM sales WHERE item = \"apple\" LIMIT 50;" := by
  constructor
  · intro uq v h c hc
    have hm : c ∈ toLowerL uq.data := by
      rcases h with h | h | h
      · exact (searchItem1_spec _ false v h c (stripValL_subset v c hc)).2
      · exact (searchSub_spec (matchKeyAt "customer".data)
          (matchKeyAt_spec "customer".data) _ v h c (stripValL_subset v c hc)).2
      · exact (searchSub_spec (matchKeyAt "item".data)
          (matchKeyAt_spec "item".data) _ v h c (stripValL_subset v c hc)).2
    exact toLowerL_not_upper uq.data c hm
  · decide

/-- Witness for claim C10 at the concrete question `item is Apple`, whose
extracted value `apple` contains the lower-case letter `a`. -/
theorem claim_C10_witness : isUpperA (Char.ofNat 97) = false :=
  claim_C10_lowercase_values.1 "item is Apple" "apple".data
    (Or.inr (Or.inr (by decide))) (Char.ofNat 97) (by decide)

end SqlSpw
